import Mathlib

/-!
Shallow embedding of two files of the NeMo repository slice:

* `tests/export/test_nemo_export.py` — an accuracy/benchmark script that
  exports a checkpoint to a TensorRT-LLM engine, optionally deploys it,
  queries it over the lambada dataset, and reports PASS/FAIL.
* `nemo/collections/nlp/models/language_modeling/megatron/falcon/falcon_spec.py`
  — a declarative layer-spec builder for the Falcon transformer layer.

External collaborators (the exporter, the deployed query client, the CUDA
device count, the filesystem, the model-descriptor table returned by
`get_infer_test_data`) are modelled as explicit parameters; the control flow,
string comparisons, counters and exception behaviour are translated directly
from the Python source.  Python exceptions are modelled with `Except`;
side effects that the claims mention (directory creation/removal, service
deploy/stop, deployed queries) are tracked in an explicit effects record.
-/

namespace NemoExport

/-- Python exceptions raised by the script. -/
inductive PyError where
  | exception (msg : String)
  | zeroDivisionError
  | typeError
  | nameError (undefined_name : String)
  deriving Repr, DecidableEq

/-- Python `str.strip()` (drop leading and trailing whitespace). -/
def pyStrip (s : String) : String :=
  ⟨((s.data.dropWhile Char.isWhitespace).reverse.dropWhile Char.isWhitespace).reverse⟩

/-- Python `str.lower()` (character-wise lowercasing). -/
def pyLower (s : String) : String :=
  ⟨s.data.map Char.toLower⟩

/-- Python `s.startswith(pre)`. -/
def pyStartswith (s pre : String) : Bool :=
  pre.data.isPrefixOf s.data

/-- Python `len(s)` (number of characters). -/
def pyLen (s : String) : Nat :=
  s.data.length

/-- One record of the lambada JSON fixture: fields
`text_before_last_word` and `last_word`. -/
structure Record where
  text_before_last_word : String
  last_word : String
  deriving Repr, DecidableEq

/-- `expected_output == trtllm_output` — the exact-match test at line 68 of
`test_nemo_export.py` (both strings already stripped and lowercased). -/
def exactMatch (expected_output trtllm_output : String) : Bool :=
  expected_output == trtllm_output

/-- The relaxed condition at lines 71-75: equality or prefix containment in
either direction. -/
def relaxedCond (expected_output trtllm_output : String) : Bool :=
  expected_output == trtllm_output
    || pyStartswith trtllm_output expected_output
    || pyStartswith expected_output trtllm_output

/-- The single-character short-circuit at line 76: generated output of
length 1 while the expected output has length greater than 1. -/
def relaxedExcluded (expected_output trtllm_output : String) : Bool :=
  pyLen trtllm_output == 1 && pyLen expected_output > 1

/-- A record is counted as a relaxed match when the relaxed condition holds
and the short-circuit exclusion does not (lines 71-78). -/
def relaxedMatch (expected_output trtllm_output : String) : Bool :=
  relaxedCond expected_output trtllm_output
    && !relaxedExcluded expected_output trtllm_output

/-- The mutable state of the loop in `get_accuracy_with_lambada`: the four
running counters, the two output lists, and (for reasoning about the
deployed service) the number of `nq.query_llm` calls issued so far. -/
structure AccState where
  trtllm_correct : Nat := 0
  trtllm_deployed_correct : Nat := 0
  trtllm_correct_relaxed : Nat := 0
  trtllm_deployed_correct_relaxed : Nat := 0
  all_expected_outputs : List String := []
  all_trtllm_outputs : List String := []
  deployed_queries : Nat := 0
  deriving Repr, DecidableEq

/-- The part of the loop body of `get_accuracy_with_lambada` from `if nq is
not None:` (line 80) to the end of the body (line 96): query the deployed
model, update the two deployed counters; the inner `continue` (line 95) only
skips the final increment. -/
def accStepDeployed (nq : Option (String → String)) (prompt expected_output : String)
    (s : AccState) : AccState :=
  match nq with
  | none => s
  | some q =>
    let trtllm_deployed_output := pyLower (pyStrip (q prompt))
    let s := { s with deployed_queries := s.deployed_queries + 1 }
    let s :=
      if exactMatch expected_output trtllm_deployed_output then
        { s with trtllm_deployed_correct := s.trtllm_deployed_correct + 1 }
      else s
    if relaxedCond expected_output trtllm_deployed_output then
      if relaxedExcluded expected_output trtllm_deployed_output then s
      else { s with
        trtllm_deployed_correct_relaxed := s.trtllm_deployed_correct_relaxed + 1 }
    else s

/-- One iteration of the `for record in records:` loop of
`get_accuracy_with_lambada` (lines 51-96).  `model` stands for
`model.forward(...)[0][0]` on a single prompt; the `continue` at line 77
skips the rest of the body, including the deployed-model block. -/
def accStep (model : String → String) (nq : Option (String → String))
    (s : AccState) (record : Record) : AccState :=
  let prompt := record.text_before_last_word
  let expected_output := pyLower (pyStrip record.last_word)
  let trtllm_output := pyLower (pyStrip (model prompt))
  let s := { s with
    all_expected_outputs := s.all_expected_outputs ++ [expected_output],
    all_trtllm_outputs := s.all_trtllm_outputs ++ [trtllm_output] }
  let s :=
    if exactMatch expected_output trtllm_output then
      { s with trtllm_correct := s.trtllm_correct + 1 }
    else s
  if relaxedCond expected_output trtllm_output then
    if relaxedExcluded expected_output trtllm_output then s
    else
      let s := { s with trtllm_correct_relaxed := s.trtllm_correct_relaxed + 1 }
      accStepDeployed nq prompt expected_output s
  else
    accStepDeployed nq prompt expected_output s

/-- The six-component return value of `get_accuracy_with_lambada`
(lines 104-111). -/
structure AccResult where
  trtllm_accuracy : ℚ
  trtllm_accuracy_relaxed : ℚ
  trtllm_deployed_accuracy : ℚ
  trtllm_deployed_accuracy_relaxed : ℚ
  all_trtllm_outputs : List String
  all_expected_outputs : List String
  deriving Repr, DecidableEq

/-- `get_accuracy_with_lambada` (lines 32-111).  `test_data` is the parsed
content of the JSON fixture at `test_data_path` (`None` when the path is
`None`).  The function raises when the path is `None` (line 39); the final
divisions (lines 98-102) raise `ZeroDivisionError` when no record was
processed, exactly as Python division by zero does. -/
def get_accuracy_with_lambada (model : String → String) (nq : Option (String → String))
    (test_data : Option (List Record)) : Except PyError AccResult :=
  match test_data with
  | none => .error (.exception "test_data_path cannot be None.")
  | some records =>
    let s := records.foldl (accStep model nq) {}
    let n := s.all_expected_outputs.length
    if n = 0 then .error .zeroDivisionError
    else
      .ok {
        trtllm_accuracy := (s.trtllm_correct : ℚ) / (n : ℚ)
        trtllm_accuracy_relaxed := (s.trtllm_correct_relaxed : ℚ) / (n : ℚ)
        trtllm_deployed_accuracy := (s.trtllm_deployed_correct : ℚ) / (n : ℚ)
        trtllm_deployed_accuracy_relaxed :=
          (s.trtllm_deployed_correct_relaxed : ℚ) / (n : ℚ)
        all_trtllm_outputs := s.all_trtllm_outputs
        all_expected_outputs := s.all_expected_outputs }

/-- The environment the script observes: which filesystem paths exist
(`Path(p).exists()`) and how many GPUs are available
(`torch.cuda.device_count()`). -/
structure World where
  path_exists : String → Bool
  cuda_device_count : Nat

/-- The external side effects of `run_trt_llm_inference` that the claims
talk about: `Path(trt_llm_model_dir).mkdir(...)` (line 149),
`shutil.rmtree(trt_llm_model_dir)` (lines 267 and 272), `nm.deploy()`
(line 232) and `nm.stop()` (lines 266 and 271). -/
structure Effects where
  dir_created : Bool := false
  dir_removed : Bool := false
  service_deployed : Bool := false
  service_stopped : Bool := false
  deriving Repr, DecidableEq

/-- The four-component result tuple of `run_trt_llm_inference`:
`(trtllm_accuracy, trtllm_accuracy_relaxed, trtllm_deployed_accuracy,
trtllm_deployed_accuracy_relaxed)`, each `None` on a skipped run. -/
abbrev ResultTuple := Option ℚ × Option ℚ × Option ℚ × Option ℚ

/-- The empty result tuple `None, None, None, None`. -/
def noneTuple : ResultTuple := (none, none, none, none)

/-- Outcome of the p-tuning / LoRA checkpoint-path check in
`run_trt_llm_inference` (lines 165-174 and 181-191): the feature is off,
enabled with an existing checkpoint, skipped because the path does not
exist, or `Path(None)` raised `TypeError` because the flag was set with no
path given. -/
inductive AdapterCheck where
  | disabled
  | enabled (path : String)
  | skip
  | typeErr
  deriving Repr, DecidableEq

/-- The checkpoint-path check shared by the p-tuning and LoRA branches of
`run_trt_llm_inference`: `if flag: if Path(ckpt).exists(): ... else:
print and return Nones`. -/
def checkAdapter (w : World) (flag : Bool) (ckpt : Option String) : AdapterCheck :=
  if flag then
    match ckpt with
    | none => .typeErr
    | some p => if w.path_exists p then .enabled p else .skip
  else .disabled

/-- `run_trt_llm_inference` (lines 114-275), with the exporter, deployment
and query collaborators abstracted: `model` is the single-prompt behaviour
of `trt_llm_exporter.forward(...)[0][0]` and `deployed_model` that of
`nq.query_llm(...)[0][0]`; `test_data` is the parsed fixture behind
`test_data_path`.  Returns the Python result (or the exception raised)
together with the side effects performed.  Note that the skip branch for
`n_gpu > torch.cuda.device_count()` (lines 141-147) formats its message
with `model_info`, a name that is not defined in this function, so
executing that branch raises `NameError` before reaching its `return`. -/
def run_trt_llm_inference (w : World)
    (checkpoint_path trt_llm_model_dir : String) (n_gpu : Nat)
    (ptuning : Bool) (p_tuning_checkpoint : Option String)
    (lora : Bool) (lora_checkpoint : Option String)
    (run_accuracy test_deployment : Bool)
    (test_data : Option (List Record))
    (model deployed_model : String → String) :
    Except PyError ResultTuple × Effects :=
  if w.path_exists checkpoint_path then
    if n_gpu > w.cuda_device_count then
      (.error (.nameError "model_info"), {})
    else
      let eff : Effects := { dir_created := true }
      match checkAdapter w ptuning p_tuning_checkpoint with
      | .typeErr => (.error .typeError, eff)
      | .skip => (.ok noneTuple, eff)
      | _ =>
        match checkAdapter w lora lora_checkpoint with
        | .typeErr => (.error .typeError, eff)
        | .skip => (.ok noneTuple, eff)
        | _ =>
          let eff := if test_deployment then { eff with service_deployed := true } else eff
          let nq : Option (String → String) :=
            if test_deployment then some deployed_model else none
          if run_accuracy then
            match get_accuracy_with_lambada model nq test_data with
            | .error e => (.error e, eff)
            | .ok r =>
              let eff := if test_deployment then { eff with service_stopped := true } else eff
              let eff := { eff with dir_removed := true }
              (.ok (some r.trtllm_accuracy, some r.trtllm_accuracy_relaxed,
                some r.trtllm_deployed_accuracy,
                some r.trtllm_deployed_accuracy_relaxed), eff)
          else
            let eff := if test_deployment then { eff with service_stopped := true } else eff
            let eff := { eff with dir_removed := true }
            (.ok noneTuple, eff)
  else
    (.error (.exception "Checkpoint could not be found."), {})

/-- One entry of the model-descriptor table returned by
`get_infer_test_data()` (defined in `tests/infer_data_path.py`, outside the
given sources): the fields `run_existing_checkpoints` reads.  An `Option`
field is `some` exactly when the corresponding key is present in the
dictionary. -/
structure ModelInfo where
  model_type : String
  checkpoint : String
  trt_llm_model_dir : String
  prompt_template : String
  min_gpus : Nat
  max_batch_size : Nat
  max_output_token : Nat
  p_tuning_checkpoint : Option String := none
  lora_checkpoint : Option String := none

/-- `run_existing_checkpoints` (lines 278-344).  `infer_test_data` is the
read-only lookup table returned by `get_infer_test_data()`, passed as a
parameter because its definition lives outside the given sources. -/
def run_existing_checkpoints (w : World) (infer_test_data : String → Option ModelInfo)
    (model_name : String) (n_gpus : Nat)
    (ptuning lora run_accuracy test_deployment : Bool)
    (test_data : Option (List Record))
    (model deployed_model : String → String) :
    Except PyError ResultTuple × Effects :=
  if n_gpus > w.cuda_device_count then
    (.ok noneTuple, {})
  else
    match infer_test_data model_name with
    | none => (.error (.exception "Model is not supported."), {})
    | some model_info =>
      if n_gpus < model_info.min_gpus then
        (.ok noneTuple, {})
      else if ptuning && model_info.p_tuning_checkpoint.isNone then
        (.error (.exception "There is not ptuning checkpoint path defined."), {})
      else if lora && model_info.lora_checkpoint.isNone then
        (.error (.exception "There is not lora checkpoint path defined."), {})
      else
        run_trt_llm_inference w model_info.checkpoint model_info.trt_llm_model_dir
          n_gpus ptuning (if ptuning then model_info.p_tuning_checkpoint else none)
          lora (if lora then model_info.lora_checkpoint else none)
          run_accuracy test_deployment test_data model deployed_model

/-- Lines 431-434 of `run_inference_tests`: the string-valued
`--test_deployment` flag becomes `False` only when it equals the exact
string `"False"`; every other value enables deployment testing. -/
def parse_test_deployment (s : String) : Bool :=
  if s == "False" then false else true

/-- Lines 436-438 of `run_inference_tests`: when `run_accuracy` is set,
a `None` `test_data_path` raises immediately. -/
def run_inference_tests_validate (run_accuracy : Bool)
    (test_data_path : Option String) : Except PyError Unit :=
  if run_accuracy then
    match test_data_path with
    | none => .error (.exception "test_data_path param cannot be None.")
    | some _ => .ok ()
  else .ok ()

/-- One iteration of the summary loop of `run_inference_tests`
(lines 521-530): when both `results[0]` and `results[1]` are non-`None` the
entry is printed and `test_result` becomes `"FAIL"` if `results[1] < 0.5`. -/
def summaryUpdate (test_result : String) (results : ResultTuple) : String :=
  match results.1, results.2.1 with
  | some _, some rel => if rel < 1/2 then "FAIL" else test_result
  | _, _ => test_result

/-- The summary block of `run_inference_tests` (lines 519-535) applied to
the values of `result_dic` in iteration order: fold the per-entry update
starting from `"PASS"`, then raise exactly when the final result is
`"FAIL"`. -/
def run_inference_tests_summary (result_dic : List ResultTuple) : Except PyError Unit :=
  let test_result := result_dic.foldl summaryUpdate "PASS"
  if test_result == "FAIL" then .error (.exception "Model accuracy is below 0.5")
  else .ok ()

end NemoExport

namespace FalconSpec

/-- The module references that `falcon_spec.py` imports and wires together.
`IdentityOp` and `IdentityFuncOp` are the megatron-core defaults for
submodule slots that a layer spec leaves unset. -/
inductive ModuleRef where
  | TENorm
  | TEColumnParallelLinear
  | TEDotProductAttention
  | TERowParallelLinear
  | SelfAttention
  | MLP
  | FalconTransformerLayer
  | getBiasDropoutAdd
  | IdentityOp
  | IdentityFuncOp
  deriving Repr, DecidableEq

/-- `megatron.core.transformer.enums.AttnMaskType`. -/
inductive AttnMaskType where
  | padding
  | causal
  | no_mask
  deriving Repr, DecidableEq

/-- `SelfAttentionSubmodules(linear_qkv=..., core_attention=..., linear_proj=...)`. -/
structure SelfAttentionSubmodules where
  linear_qkv : ModuleRef
  core_attention : ModuleRef
  linear_proj : ModuleRef
  deriving Repr, DecidableEq

/-- `MLPSubmodules(linear_fc1=..., linear_fc2=...)`. -/
structure MLPSubmodules where
  linear_fc1 : ModuleRef
  linear_fc2 : ModuleRef
  deriving Repr, DecidableEq

/-- The `ModuleSpec(module=SelfAttention, params=..., submodules=...)` value
built at lines 34-42 of `falcon_spec.py`. -/
structure SelfAttentionSpec where
  module : ModuleRef
  attn_mask_type : AttnMaskType
  submodules : SelfAttentionSubmodules
  deriving Repr, DecidableEq

/-- The `ModuleSpec(module=MLP, submodules=...)` value built at
lines 45-47 of `falcon_spec.py`. -/
structure MLPSpec where
  module : ModuleRef
  submodules : MLPSubmodules
  deriving Repr, DecidableEq

/-- `megatron.core.transformer.transformer_layer.TransformerLayerSubmodules`,
restricted to the slots `falcon_spec.py` mentions; unset slots default to
the identity modules as in megatron-core.  `post_self_attn_layernorm` is not
a field of the megatron-core dataclass: it is attached to the object after
construction (line 51), so it is modelled as an `Option` that is `none`
until that assignment. -/
structure TransformerLayerSubmodules where
  input_layernorm : ModuleRef := .IdentityOp
  self_attention : SelfAttentionSpec
  self_attn_bda : ModuleRef := .IdentityFuncOp
  pre_mlp_layernorm : ModuleRef := .IdentityOp
  mlp : MLPSpec
  mlp_bda : ModuleRef := .IdentityFuncOp
  post_self_attn_layernorm : Option ModuleRef := none
  deriving Repr, DecidableEq

/-- The `ModuleSpec(module=FalconTransformerLayer, submodules=...)` value
returned at line 52 of `falcon_spec.py`. -/
structure LayerSpec where
  module : ModuleRef
  submodules : TransformerLayerSubmodules
  deriving Repr, DecidableEq

/-- `get_falcon_layer_spec` (lines 31-52 of `falcon_spec.py`): build the
submodule assembly, apply the single post-construction compatibility patch
setting `post_self_attn_layernorm`, and wrap it in a `ModuleSpec` for
`FalconTransformerLayer`. -/
def get_falcon_layer_spec : LayerSpec :=
  let falcon_submodules : TransformerLayerSubmodules := {
    input_layernorm := .TENorm
    self_attention := {
      module := .SelfAttention
      attn_mask_type := .causal
      submodules := {
        linear_qkv := .TEColumnParallelLinear
        core_attention := .TEDotProductAttention
        linear_proj := .TERowParallelLinear } }
    self_attn_bda := .getBiasDropoutAdd
    pre_mlp_layernorm := .TENorm
    mlp := {
      module := .MLP
      submodules := {
        linear_fc1 := .TEColumnParallelLinear
        linear_fc2 := .TERowParallelLinear } }
    mlp_bda := .getBiasDropoutAdd }
  let falcon_submodules :=
    { falcon_submodules with post_self_attn_layernorm := some .TENorm }
  { module := .FalconTransformerLayer, submodules := falcon_submodules }

end FalconSpec

namespace NemoExport

/-- Projections of one deployed-model step: the expected-output and
generated-output lists and the two local counters are untouched, and each
deployed counter grows by at most one. -/
lemma accStepDeployed_fields (nq : Option (String → String)) (prompt expected_output : String)
    (s : AccState) :
    (accStepDeployed nq prompt expected_output s).all_expected_outputs = s.all_expected_outputs ∧
    (accStepDeployed nq prompt expected_output s).all_trtllm_outputs = s.all_trtllm_outputs ∧
    (accStepDeployed nq prompt expected_output s).trtllm_correct = s.trtllm_correct ∧
    (accStepDeployed nq prompt expected_output s).trtllm_correct_relaxed
      = s.trtllm_correct_relaxed ∧
    (accStepDeployed nq prompt expected_output s).trtllm_deployed_correct
      ≤ s.trtllm_deployed_correct + 1 ∧
    (accStepDeployed nq prompt expected_output s).trtllm_deployed_correct_relaxed
      ≤ s.trtllm_deployed_correct_relaxed + 1 := by
  rcases nq with _ | q <;> simp only [accStepDeployed] <;> (try split_ifs) <;> simp

/-- Projections of one loop iteration: `all_expected_outputs` grows by
exactly one entry and each of the four counters by at most one. -/
lemma accStep_fields (model : String → String) (nq : Option (String → String))
    (s : AccState) (r : Record) :
    (accStep model nq s r).all_expected_outputs.length = s.all_expected_outputs.length + 1 ∧
    (accStep model nq s r).trtllm_correct ≤ s.trtllm_correct + 1 ∧
    (accStep model nq s r).trtllm_correct_relaxed ≤ s.trtllm_correct_relaxed + 1 ∧
    (accStep model nq s r).trtllm_deployed_correct ≤ s.trtllm_deployed_correct + 1 ∧
    (accStep model nq s r).trtllm_deployed_correct_relaxed
      ≤ s.trtllm_deployed_correct_relaxed + 1 := by
  rcases nq with _ | q <;> simp only [accStep, accStepDeployed] <;> split_ifs <;> simp

/-- Loop invariant of `get_accuracy_with_lambada`: after folding the whole
record list, `all_expected_outputs` has gained one entry per record and each
counter is bounded by the number of records. -/
lemma foldl_accStep_bounds (model : String → String) (nq : Option (String → String))
    (records : List Record) : ∀ s : AccState,
    (records.foldl (accStep model nq) s).all_expected_outputs.length
      = s.all_expected_outputs.length + records.length ∧
    (records.foldl (accStep model nq) s).trtllm_correct ≤ s.trtllm_correct + records.length ∧
    (records.foldl (accStep model nq) s).trtllm_correct_relaxed
      ≤ s.trtllm_correct_relaxed + records.length ∧
    (records.foldl (accStep model nq) s).trtllm_deployed_correct
      ≤ s.trtllm_deployed_correct + records.length ∧
    (records.foldl (accStep model nq) s).trtllm_deployed_correct_relaxed
      ≤ s.trtllm_deployed_correct_relaxed + records.length := by
  induction records with
  | nil => intro s; simp
  | cons r rs ih =>
    intro s
    obtain ⟨a1, a2, a3, a4, a5⟩ := accStep_fields model nq s r
    obtain ⟨b1, b2, b3, b4, b5⟩ := ih (accStep model nq s r)
    refine ⟨?_, ?_, ?_, ?_, ?_⟩ <;> simp only [List.foldl_cons, List.length_cons] <;> omega

/-- One summary-loop iteration sets `test_result` to `"FAIL"` exactly when it
already was `"FAIL"` or the entry has non-`None` first and second components
with the second below one half. -/
lemma summaryUpdate_eq_fail (acc : String) (r : ResultTuple) :
    summaryUpdate acc r = "FAIL" ↔
      acc = "FAIL" ∨ (r.1.isSome ∧ ∃ q, r.2.1 = some q ∧ q < 1/2) := by
  rcases r with ⟨o1, o2, o3, o4⟩
  rcases o1 with _ | a <;> rcases o2 with _ | b
  · simp [summaryUpdate]
  · simp [summaryUpdate]
  · simp [summaryUpdate]
  · simp only [summaryUpdate]
    split_ifs with hb
    · exact iff_of_true rfl (Or.inr ⟨rfl, b, rfl, hb⟩)
    · constructor
      · exact fun h => Or.inl h
      · rintro (h | ⟨-, q, hq, hlt⟩)
        · exact h
        · cases Option.some.inj hq
          exact absurd hlt hb

/-- The folded summary loop ends in `"FAIL"` exactly when it started there or
some entry of the list fails the threshold test. -/
lemma summary_foldl_fail (l : List ResultTuple) : ∀ acc : String,
    l.foldl summaryUpdate acc = "FAIL" ↔
      acc = "FAIL" ∨ ∃ r ∈ l, r.1.isSome ∧ ∃ q, r.2.1 = some q ∧ q < 1/2 := by
  induction l with
  | nil => intro acc; simp
  | cons r rs ih =>
    intro acc
    rw [List.foldl_cons, ih (summaryUpdate acc r), summaryUpdate_eq_fail]
    constructor
    · rintro ((h | h) | ⟨r', hr', hfail⟩)
      · exact .inl h
      · exact .inr ⟨r, List.mem_cons_self r rs, h⟩
      · exact .inr ⟨r', List.mem_cons_of_mem r hr', hfail⟩
    · rintro (h | ⟨r', hr', hfail⟩)
      · exact .inl (.inl h)
      · rcases List.mem_cons.mp hr' with h' | h'
        · subst h'; exact .inl (.inr hfail)
        · exact .inr ⟨r', h', hfail⟩

/-- Claim C1: the summary block of `run_inference_tests` raises the
exception `"Model accuracy is below 0.5"` if and only if some tested GPU
count has a result tuple whose accuracy and relaxed accuracy are non-`None`
and whose relaxed accuracy is below one half; otherwise it returns
normally. -/
theorem claim_C1 (result_dic : List ResultTuple) :
    (run_inference_tests_summary result_dic
        = .error (.exception "Model accuracy is below 0.5")
      ↔ ∃ r ∈ result_dic, r.1.isSome ∧ ∃ q, r.2.1 = some q ∧ q < 1/2) ∧
    (run_inference_tests_summary result_dic = .ok ()
      ↔ ¬ ∃ r ∈ result_dic, r.1.isSome ∧ ∃ q, r.2.1 = some q ∧ q < 1/2) := by
  have hf := summary_foldl_fail result_dic "PASS"
  simp only [show ¬("PASS" : String) = "FAIL" by decide, false_or] at hf
  by_cases hcond : result_dic.foldl summaryUpdate "PASS" = "FAIL"
  · have hex := hf.mp hcond
    have hbeq : (result_dic.foldl summaryUpdate "PASS" == "FAIL") = true := by
      simp [hcond]
    have hrun : run_inference_tests_summary result_dic
        = .error (.exception "Model accuracy is below 0.5") := by
      simp only [run_inference_tests_summary, hbeq, if_true]
    rw [hrun]
    exact ⟨iff_of_true rfl hex, iff_of_false (by simp) (not_not_intro hex)⟩
  · have hex : ¬ ∃ r ∈ result_dic, r.1.isSome ∧ ∃ q, r.2.1 = some q ∧ q < 1/2 :=
      fun hx => hcond (hf.mpr hx)
    have hbeq : (result_dic.foldl summaryUpdate "PASS" == "FAIL") = false := by
      simp [hcond]
    have hrun : run_inference_tests_summary result_dic = .ok () := by
      simp only [run_inference_tests_summary, hbeq, Bool.false_eq_true, if_false]
    rw [hrun]
    exact ⟨iff_of_false (by simp) hex, iff_of_true rfl hex⟩

/-- Claim C1, instantiated: a single entry with relaxed accuracy 0 raises,
and an empty summary passes. -/
theorem claim_C1_witness :
    run_inference_tests_summary [(some 1, some 0, none, none)]
      = .error (.exception "Model accuracy is below 0.5") ∧
    run_inference_tests_summary [] = .ok () :=
  ⟨(claim_C1 [(some 1, some 0, none, none)]).1.mpr
      ⟨(some 1, some 0, none, none), by simp, by simp, 0, rfl, by norm_num⟩,
   (claim_C1 []).2.mpr (by simp)⟩

/-- Claim C2: for every non-empty record list, `get_accuracy_with_lambada`
returns, the length of `all_expected_outputs` equals the number of records,
each accuracy equals its running counter divided by that length, and each
accuracy lies in the closed interval from 0 to 1. -/
theorem claim_C2 (model : String → String) (nq : Option (String → String))
    (records : List Record) (h : records ≠ []) :
    ∃ v, get_accuracy_with_lambada model nq (some records) = .ok v ∧
      (records.foldl (accStep model nq) {}).all_expected_outputs.length = records.length ∧
      v.trtllm_accuracy
        = ((records.foldl (accStep model nq) {}).trtllm_correct : ℚ) / (records.length : ℚ) ∧
      v.trtllm_accuracy_relaxed
        = ((records.foldl (accStep model nq) {}).trtllm_correct_relaxed : ℚ)
            / (records.length : ℚ) ∧
      v.trtllm_deployed_accuracy
        = ((records.foldl (accStep model nq) {}).trtllm_deployed_correct : ℚ)
            / (records.length : ℚ) ∧
      v.trtllm_deployed_accuracy_relaxed
        = ((records.foldl (accStep model nq) {}).trtllm_deployed_correct_relaxed : ℚ)
            / (records.length : ℚ) ∧
      0 ≤ v.trtllm_accuracy ∧ v.trtllm_accuracy ≤ 1 ∧
      0 ≤ v.trtllm_accuracy_relaxed ∧ v.trtllm_accuracy_relaxed ≤ 1 ∧
      0 ≤ v.trtllm_deployed_accuracy ∧ v.trtllm_deployed_accuracy ≤ 1 ∧
      0 ≤ v.trtllm_deployed_accuracy_relaxed ∧ v.trtllm_deployed_accuracy_relaxed ≤ 1 := by
  obtain ⟨hlen, hc1, hc2, hc3, hc4⟩ := foldl_accStep_bounds model nq records {}
  have hn : (records.foldl (accStep model nq) {}).all_expected_outputs.length
      = records.length := by simpa using hlen
  have hb1 : (records.foldl (accStep model nq) ({} : AccState)).trtllm_correct
      ≤ records.length := by simpa using hc1
  have hb2 : (records.foldl (accStep model nq) ({} : AccState)).trtllm_correct_relaxed
      ≤ records.length := by simpa using hc2
  have hb3 : (records.foldl (accStep model nq) ({} : AccState)).trtllm_deployed_correct
      ≤ records.length := by simpa using hc3
  have hb4 : (records.foldl (accStep model nq) ({} : AccState)).trtllm_deployed_correct_relaxed
      ≤ records.length := by simpa using hc4
  have hpos : 0 < records.length := List.length_pos.mpr h
  have hne : ¬ (records.foldl (accStep model nq) {}).all_expected_outputs.length = 0 := by omega
  have hb : ∀ c : ℕ, c ≤ records.length → 0 ≤ (c : ℚ) / (records.length : ℚ) ∧
      (c : ℚ) / (records.length : ℚ) ≤ 1 := by
    intro c hc
    constructor
    · positivity
    · rw [div_le_one (by exact_mod_cast hpos)]
      exact_mod_cast hc
  have heval : get_accuracy_with_lambada model nq (some records) = .ok {
      trtllm_accuracy := ((records.foldl (accStep model nq) {}).trtllm_correct : ℚ)
        / (((records.foldl (accStep model nq) ({} : AccState)).all_expected_outputs.length : ℕ)
            : ℚ)
      trtllm_accuracy_relaxed := ((records.foldl (accStep model nq) {}).trtllm_correct_relaxed
          : ℚ)
        / (((records.foldl (accStep model nq) ({} : AccState)).all_expected_outputs.length : ℕ)
            : ℚ)
      trtllm_deployed_accuracy := ((records.foldl
            (accStep model nq) {}).trtllm_deployed_correct : ℚ)
        / (((records.foldl (accStep model nq) ({} : AccState)).all_expected_outputs.length : ℕ)
            : ℚ)
      trtllm_deployed_accuracy_relaxed :=
        ((records.foldl (accStep model nq) {}).trtllm_deployed_correct_relaxed : ℚ)
        / (((records.foldl (accStep model nq) ({} : AccState)).all_expected_outputs.length : ℕ)
            : ℚ)
      all_trtllm_outputs := (records.foldl (accStep model nq) {}).all_trtllm_outputs
      all_expected_outputs := (records.foldl (accStep model nq) {}).all_expected_outputs } := by
    simp only [get_accuracy_with_lambada]
    rw [if_neg hne]
  refine ⟨_, heval, hn, ?_, ?_, ?_, ?_, ?_, ?_, ?_, ?_, ?_, ?_, ?_, ?_⟩ <;>
    simp only [hn] <;>
    first
    | rfl
    | exact (hb _ hb1).1
    | exact (hb _ hb1).2
    | exact (hb _ hb2).1
    | exact (hb _ hb2).2
    | exact (hb _ hb3).1
    | exact (hb _ hb3).2
    | exact (hb _ hb4).1
    | exact (hb _ hb4).2

/-- Claim C2, instantiated at a one-record fixture whose generated output
matches the expected word. -/
theorem claim_C2_witness :
    ∃ v, get_accuracy_with_lambada (fun _ => "dog ") none (some [⟨"p", " Dog"⟩]) = .ok v ∧
      (([⟨"p", " Dog"⟩] : List Record).foldl
          (accStep (fun _ => "dog ") none) {}).all_expected_outputs.length
        = ([⟨"p", " Dog"⟩] : List Record).length ∧
      v.trtllm_accuracy
        = ((([⟨"p", " Dog"⟩] : List Record).foldl
              (accStep (fun _ => "dog ") none) {}).trtllm_correct : ℚ)
            / (([⟨"p", " Dog"⟩] : List Record).length : ℚ) ∧
      v.trtllm_accuracy_relaxed
        = ((([⟨"p", " Dog"⟩] : List Record).foldl
              (accStep (fun _ => "dog ") none) {}).trtllm_correct_relaxed : ℚ)
            / (([⟨"p", " Dog"⟩] : List Record).length : ℚ) ∧
      v.trtllm_deployed_accuracy
        = ((([⟨"p", " Dog"⟩] : List Record).foldl
              (accStep (fun _ => "dog ") none) {}).trtllm_deployed_correct : ℚ)
            / (([⟨"p", " Dog"⟩] : List Record).length : ℚ) ∧
      v.trtllm_deployed_accuracy_relaxed
        = ((([⟨"p", " Dog"⟩] : List Record).foldl
              (accStep (fun _ => "dog ") none) {}).trtllm_deployed_correct_relaxed : ℚ)
            / (([⟨"p", " Dog"⟩] : List Record).length : ℚ) ∧
      0 ≤ v.trtllm_accuracy ∧ v.trtllm_accuracy ≤ 1 ∧
      0 ≤ v.trtllm_accuracy_relaxed ∧ v.trtllm_accuracy_relaxed ≤ 1 ∧
      0 ≤ v.trtllm_deployed_accuracy ∧ v.trtllm_deployed_accuracy ≤ 1 ∧
      0 ≤ v.trtllm_deployed_accuracy_relaxed ∧ v.trtllm_deployed_accuracy_relaxed ≤ 1 :=
  claim_C2 (fun _ => "dog ") none [⟨"p", " Dog"⟩] (by decide)

/-- Claim C3: every record counted as an exact match and not excluded by the
single-character short-circuit is also counted as a relaxed match. -/
theorem claim_C3 (expected_output trtllm_output : String)
    (hexact : exactMatch expected_output trtllm_output = true)
    (hexcl : relaxedExcluded expected_output trtllm_output = false) :
    relaxedMatch expected_output trtllm_output = true := by
  simp [relaxedMatch, relaxedCond, exactMatch, hexcl] at *
  simp [hexact]

/-- Claim C3, instantiated at an exactly matching pair. -/
theorem claim_C3_witness : relaxedMatch "dog" "dog" = true :=
  claim_C3 "dog" "dog" rfl rfl

/-- Claim C4: in the source, the skip branch of `run_trt_llm_inference` for a
requested GPU count above the available count formats its message with the
undefined name `model_info` (line 144), so that branch raises `NameError`
instead of printing and returning the empty tuple; the corresponding skips
in `run_existing_checkpoints` do return the empty tuple as claimed.  The
three conjuncts evaluate the embedding at a failing input and at the two
genuine soft-skip inputs. -/
theorem claim_C4_eval :
    run_trt_llm_inference ⟨fun _ => true, 1⟩ "model.nemo" "trt_dir" 2 false none false none
        false false none (fun _ => "") (fun _ => "")
      = (.error (.nameError "model_info"), {}) ∧
    run_existing_checkpoints ⟨fun _ => true, 1⟩ (fun _ => some {
        model_type := "llama", checkpoint := "model.nemo", trt_llm_model_dir := "trt_dir",
        prompt_template := "p", min_gpus := 1, max_batch_size := 8, max_output_token := 128 })
        "m" 2 false false false false none (fun _ => "") (fun _ => "")
      = (.ok noneTuple, {}) ∧
    run_existing_checkpoints ⟨fun _ => true, 4⟩ (fun _ => some {
        model_type := "llama", checkpoint := "model.nemo", trt_llm_model_dir := "trt_dir",
        prompt_template := "p", min_gpus := 2, max_batch_size := 8, max_output_token := 128 })
        "m" 1 false false false false none (fun _ => "") (fun _ => "")
      = (.ok noneTuple, {}) :=
  ⟨rfl, rfl, rfl⟩

/-- Claim C5: a missing checkpoint path makes `run_trt_llm_inference` raise;
`run_inference_tests` raises when `run_accuracy` is set and `test_data_path`
is `None`; `get_accuracy_with_lambada` raises on a `None` path; and
`run_existing_checkpoints` raises when the required p-tuning or LoRA
checkpoint entry is missing from the model descriptor. -/
theorem claim_C5 :
    (∀ (w : World) (cp dir : String) (n : Nat) (pt : Bool) (ptc : Option String) (lo : Bool)
        (loc : Option String) (ra td : Bool) (data : Option (List Record))
        (m dm : String → String), w.path_exists cp = false →
      run_trt_llm_inference w cp dir n pt ptc lo loc ra td data m dm
        = (.error (.exception "Checkpoint could not be found."), {})) ∧
    run_inference_tests_validate true none
      = .error (.exception "test_data_path param cannot be None.") ∧
    (∀ (model : String → String) (nq : Option (String → String)),
      get_accuracy_with_lambada model nq none
        = .error (.exception "test_data_path cannot be None.")) ∧
    (∀ (w : World) (table : String → Option ModelInfo) (mn : String) (n : Nat)
        (lo ra td : Bool) (data : Option (List Record)) (m dm : String → String)
        (info : ModelInfo),
      ¬ n > w.cuda_device_count → table mn = some info → ¬ n < info.min_gpus →
      info.p_tuning_checkpoint = none →
      run_existing_checkpoints w table mn n true lo ra td data m dm
        = (.error (.exception "There is not ptuning checkpoint path defined."), {})) ∧
    (∀ (w : World) (table : String → Option ModelInfo) (mn : String) (n : Nat)
        (ra td : Bool) (data : Option (List Record)) (m dm : String → String)
        (info : ModelInfo),
      ¬ n > w.cuda_device_count → table mn = some info → ¬ n < info.min_gpus →
      info.lora_checkpoint = none →
      run_existing_checkpoints w table mn n false true ra td data m dm
        = (.error (.exception "There is not lora checkpoint path defined."), {})) := by
  refine ⟨?_, rfl, ?_, ?_, ?_⟩
  · intro w cp dir n pt ptc lo loc ra td data m dm h
    simp [run_trt_llm_inference, h]
  · intro model nq; rfl
  · intro w table mn n lo ra td data m dm info h1 h2 h3 h4
    simp [run_existing_checkpoints, h1, h2, h3, h4]
  · intro w table mn n ra td data m dm info h1 h2 h3 h4
    simp [run_existing_checkpoints, h1, h2, h3, h4]

/-- Claim C5, instantiated: concrete missing-checkpoint, missing-fixture and
missing-adapter-entry calls. -/
theorem claim_C5_witness :
    run_trt_llm_inference ⟨fun _ => false, 0⟩ "missing.nemo" "trt_dir" 1 false none false none
        false false none (fun _ => "") (fun _ => "")
      = (.error (.exception "Checkpoint could not be found."), {}) ∧
    get_accuracy_with_lambada (fun _ => "") none none
      = .error (.exception "test_data_path cannot be None.") ∧
    run_existing_checkpoints ⟨fun _ => true, 2⟩ (fun _ => some {
        model_type := "llama", checkpoint := "model.nemo", trt_llm_model_dir := "trt_dir",
        prompt_template := "p", min_gpus := 1, max_batch_size := 8, max_output_token := 128 })
        "m" 1 true false false false none (fun _ => "") (fun _ => "")
      = (.error (.exception "There is not ptuning checkpoint path defined."), {}) ∧
    run_existing_checkpoints ⟨fun _ => true, 2⟩ (fun _ => some {
        model_type := "llama", checkpoint := "model.nemo", trt_llm_model_dir := "trt_dir",
        prompt_template := "p", min_gpus := 1, max_batch_size := 8, max_output_token := 128 })
        "m" 1 false true false false none (fun _ => "") (fun _ => "")
      = (.error (.exception "There is not lora checkpoint path defined."), {}) :=
  ⟨claim_C5.1 ⟨fun _ => false, 0⟩ "missing.nemo" "trt_dir" 1 false none false none
      false false none (fun _ => "") (fun _ => "") rfl,
   claim_C5.2.2.1 (fun _ => "") none,
   claim_C5.2.2.2.1 ⟨fun _ => true, 2⟩ _ "m" 1 false false false none (fun _ => "")
      (fun _ => "") _ (by decide) rfl (by decide) rfl,
   claim_C5.2.2.2.2 ⟨fun _ => true, 2⟩ _ "m" 1 false false none (fun _ => "")
      (fun _ => "") _ (by decide) rfl (by decide) rfl⟩

/-- Claim C6: whenever `run_trt_llm_inference` ends in an exception, the
teardown calls at the end of the function were never reached, so the model
directory has not been removed and the deployed service has not been
stopped — in particular for exceptions raised after the directory was
created. -/
theorem claim_C6 (w : World) (cp dir : String) (n : Nat) (pt : Bool) (ptc : Option String)
    (lo : Bool) (loc : Option String) (ra td : Bool) (data : Option (List Record))
    (m dm : String → String) (e : PyError) (eff : Effects)
    (h : run_trt_llm_inference w cp dir n pt ptc lo loc ra td data m dm = (.error e, eff)) :
    eff.dir_removed = false ∧ eff.service_stopped = false := by
  cases td <;>
    simp only [run_trt_llm_inference, Bool.false_eq_true, if_false, if_true] at h <;>
    repeat' split at h
  all_goals simp only [Prod.mk.injEq] at h
  all_goals obtain ⟨h1, h2⟩ := h
  all_goals first
    | (subst h2; exact ⟨rfl, rfl⟩)
    | exact absurd h1 (by simp)

/-- Claim C6, instantiated: an accuracy run over an empty fixture raises
after the model directory is created, and the directory is not removed. -/
theorem claim_C6_witness :
    (({ dir_created := true } : Effects)).dir_removed = false ∧
    (({ dir_created := true } : Effects)).service_stopped = false :=
  claim_C6 ⟨fun _ => true, 8⟩ "ckpt" "dir" 1 false none false none true false (some [])
    (fun _ => "") (fun _ => "") .zeroDivisionError { dir_created := true } rfl

/-- Claim C8: for a record where the locally generated output has length 1,
the expected output has length above 1 and the relaxed condition holds, the
`continue` skips the deployed-model block: no deployed query is issued and
neither deployed counter changes, even though a deployed query object is
provided. -/
theorem claim_C8 (model q : String → String) (s : AccState) (record : Record)
    (h1 : pyLen (pyLower (pyStrip (model record.text_before_last_word))) = 1)
    (h2 : 1 < pyLen (pyLower (pyStrip record.last_word)))
    (h3 : relaxedCond (pyLower (pyStrip record.last_word))
        (pyLower (pyStrip (model record.text_before_last_word))) = true) :
    (accStep model (some q) s record).deployed_queries = s.deployed_queries ∧
    (accStep model (some q) s record).trtllm_deployed_correct = s.trtllm_deployed_correct ∧
    (accStep model (some q) s record).trtllm_deployed_correct_relaxed
      = s.trtllm_deployed_correct_relaxed := by
  have hexcl : relaxedExcluded (pyLower (pyStrip record.last_word))
      (pyLower (pyStrip (model record.text_before_last_word))) = true := by
    simp [relaxedExcluded, h1, h2]
  simp only [accStep, h3, hexcl, if_true]
  split_ifs <;> simp

/-- Claim C8, instantiated: generated output `"a"` against expected output
`"ab"`, with a deployed model that would have matched had it been queried. -/
theorem claim_C8_witness :
    (accStep (fun _ => "a") (some fun _ => "ab") {} ⟨"p", "ab"⟩).deployed_queries = 0 ∧
    (accStep (fun _ => "a") (some fun _ => "ab") {} ⟨"p", "ab"⟩).trtllm_deployed_correct = 0 ∧
    (accStep (fun _ => "a") (some fun _ => "ab") {} ⟨"p", "ab"⟩).trtllm_deployed_correct_relaxed
      = 0 :=
  claim_C8 (fun _ => "a") (fun _ => "ab") {} ⟨"p", "ab"⟩ (by decide) (by decide) (by decide)

/-- Claim C9: an empty record array makes `get_accuracy_with_lambada` raise
`ZeroDivisionError` at the final ratios, and a non-empty record list is a
necessary condition for the function to return. -/
theorem claim_C9 :
    (∀ (model : String → String) (nq : Option (String → String)),
      get_accuracy_with_lambada model nq (some []) = .error .zeroDivisionError) ∧
    (∀ (model : String → String) (nq : Option (String → String)) (records : List Record)
      (v : AccResult), get_accuracy_with_lambada model nq (some records) = .ok v →
      records ≠ []) := by
  constructor
  · intro model nq; rfl
  · intro model nq records v hok hnil
    subst hnil
    simp [get_accuracy_with_lambada] at hok

/-- Claim C9, instantiated: the empty fixture raises, and a successful
one-record run certifies its record list non-empty. -/
theorem claim_C9_witness :
    get_accuracy_with_lambada (fun _ => "x") none (some []) = .error .zeroDivisionError ∧
    ([(⟨"p", " Dog"⟩ : Record)] : List Record) ≠ [] := by
  constructor
  · exact claim_C9.1 (fun _ => "x") none
  · refine claim_C9.2 (fun _ => "dog ") none _
      { trtllm_accuracy := 1, trtllm_accuracy_relaxed := 1,
        trtllm_deployed_accuracy := 0, trtllm_deployed_accuracy_relaxed := 0,
        all_trtllm_outputs := ["dog"], all_expected_outputs := ["dog"] } ?_
    have hfold : List.foldl (accStep (fun _ => "dog ") none) {} [(⟨"p", " Dog"⟩ : Record)] =
        { trtllm_correct := 1, trtllm_deployed_correct := 0, trtllm_correct_relaxed := 1,
          trtllm_deployed_correct_relaxed := 0, all_expected_outputs := ["dog"],
          all_trtllm_outputs := ["dog"], deployed_queries := 0 } := by decide
    simp [get_accuracy_with_lambada, hfold]

/-- Claim C10: the `--test_deployment` flag disables deployment testing only
for the exact string `"False"`; other strings, including `"false"`, `"0"`
and `"no"`, enable it. -/
theorem claim_C10 :
    (∀ s : String, parse_test_deployment s = false ↔ s = "False") ∧
    parse_test_deployment "false" = true ∧
    parse_test_deployment "0" = true ∧
    parse_test_deployment "no" = true := by
  refine ⟨?_, by decide, by decide, by decide⟩
  intro s
  by_cases h : s = "False" <;> simp [parse_test_deployment, h]

/-- Claim C10, instantiated at the exact disabling string. -/
theorem claim_C10_witness : parse_test_deployment "False" = false :=
  (claim_C10.1 "False").mpr rfl

end NemoExport

namespace FalconSpec

/-- Claim C7: `get_falcon_layer_spec` is a fixed assembly: the returned spec
wraps `FalconTransformerLayer`, sets `input_layernorm` and
`pre_mlp_layernorm` to `TENorm`, builds the self-attention spec with a
causal mask and TE linear/attention submodules, builds the MLP spec with TE
linear submodules, and — through the single post-construction compatibility
patch — sets `post_self_attn_layernorm` to `TENorm`. -/
theorem claim_C7 :
    get_falcon_layer_spec.module = .FalconTransformerLayer ∧
    get_falcon_layer_spec.submodules.input_layernorm = .TENorm ∧
    get_falcon_layer_spec.submodules.pre_mlp_layernorm = .TENorm ∧
    get_falcon_layer_spec.submodules.self_attention.module = .SelfAttention ∧
    get_falcon_layer_spec.submodules.self_attention.attn_mask_type = .causal ∧
    get_falcon_layer_spec.submodules.self_attention.submodules
      = ⟨.TEColumnParallelLinear, .TEDotProductAttention, .TERowParallelLinear⟩ ∧
    get_falcon_layer_spec.submodules.mlp.module = .MLP ∧
    get_falcon_layer_spec.submodules.mlp.submodules
      = ⟨.TEColumnParallelLinear, .TERowParallelLinear⟩ ∧
    get_falcon_layer_spec.submodules.self_attn_bda = .getBiasDropoutAdd ∧
    get_falcon_layer_spec.submodules.mlp_bda = .getBiasDropoutAdd ∧
    get_falcon_layer_spec.submodules.post_self_attn_layernorm = some .TENorm := by
  decide

end FalconSpec
